import Mathlib

/-!
# RetailAIChatbot frontend — verification of the reconciliation layer

A shallow embedding of the client-side coordination code of the
RetailAIChatbot frontend (chat message reducer, conversation loader,
WebSocket channel with reconnect/backoff, purchase-order status updates,
status pollers, and REST response handling), together with theorems that
settle the specification's claims about it.

JavaScript values that cross the server boundary are modelled by a small
JSON value type `Json`; JavaScript truthiness, the `||` operator, property
access and `JSON.parse` are modelled explicitly.  Component state held in
React hooks is modelled by explicit state records, and event-loop
interleavings by folds of step functions over event lists.
-/

/-- JSON values as delivered to (and produced by) `JSON.parse`.
Numbers are modelled as integers; no claim in scope inspects
fractional values. -/
inductive Json where
  | null
  | bool (b : Bool)
  | num (n : Int)
  | str (s : String)
  | arr (xs : List Json)
  | obj (fields : List (String × Json))
deriving Repr

namespace Json

/-- JavaScript truthiness of a value (`undefined` is conflated with
`null`: no modelled code path distinguishes them). -/
def truthy : Json → Bool
  | .null => false
  | .bool b => b
  | .num n => n != 0
  | .str s => s != ""
  | .arr _ => true
  | .obj _ => true

/-- The JavaScript `a || b` operator. -/
def orElse (a b : Json) : Json := if a.truthy then a else b

/-- Property access `j.k` / `j?.k`: a field lookup on objects, `undefined`
(modelled `null`) on everything else.  Every access site in the embedded
code is either optional-chained or guarded to a non-null receiver, so the
total model is faithful there. -/
def getField (j : Json) (k : String) : Json :=
  match j with
  | .obj fields => ((fields.lookup k).getD .null)
  | _ => .null

/-- The `.length` property: defined for arrays and strings,
`undefined` (modelled `null`) otherwise. -/
def lengthProp : Json → Json
  | .arr xs => .num xs.length
  | .str s => .num s.length
  | _ => .null

/-- `typeof j === "string"`. -/
def isString : Json → Bool
  | .str _ => true
  | _ => false

/-- `j && typeof j === "object"`: truthy values whose `typeof` is
`"object"` (objects and arrays; `null` is falsy and excluded). -/
def isObjectLike : Json → Bool
  | .obj _ => true
  | .arr _ => true
  | _ => false

/-- JavaScript string coercion `String(j)` as used when a non-string
lands in an `Error` message.  Only its existence matters to the claims;
container values are abbreviated. -/
def errText : Json → String
  | .str s => s
  | .num n => toString n
  | .bool b => toString b
  | .null => "null"
  | .arr _ => "[array]"
  | .obj _ => "[object Object]"

/-- Read a field expected to be a string, as the TypeScript code does
without validation: a non-string value would flow through untyped, which
the model collapses to its string coercion. -/
def strField (j : Json) (k : String) : String :=
  (j.getField k).errText

end Json

/-- `needle` occurs as a contiguous substring of the character list. -/
def containsSub (needle : List Char) : List Char → Bool
  | [] => needle.isPrefixOf []
  | c :: t => needle.isPrefixOf (c :: t) || containsSub needle t

/-- The JavaScript `s.includes(sub)` string method. -/
def jsIncludes (s sub : String) : Bool :=
  containsSub sub.data s.data

/-- The JavaScript `s.trim()` string method: strip leading and trailing
whitespace. -/
def jsTrim (s : String) : String :=
  String.mk
    (((s.data.dropWhile Char.isWhitespace).reverse.dropWhile
        Char.isWhitespace).reverse)

/-! ## Purchase orders and the `po_status_update` WebSocket case
(src/unnamed/part_001, `POSidebar.handleWebSocketMessage`). -/

/-- A purchase-order record as held in the sidebar's `todayPOs` /
`selectedDatePOs` state (interface `PurchaseOrder`). -/
structure PurchaseOrder where
  po_number : String
  vendor_name : String
  total_amount : Int
  status : String
  needs_approval : Bool
  pdf_path : String
  order_date : String
  created_at : String
  materials_count : Option Nat
deriving Repr, DecidableEq

/-- The updater passed to `setTodayPOs` / `setSelectedDatePOs` in the
`po_status_update` case: map over the list, replacing the `status` of
every record whose `po_number` strictly equals (`===`) the event's
`po_number`, via object spread `{ ...po, status }`.  A non-string event
`po_number` never `===`-matches a record's string key; `status` is typed
as the TS status union, hence stored through its string coercion. -/
def updatePOList (po_number status : Json) (prev : List PurchaseOrder) :
    List PurchaseOrder :=
  prev.map fun po =>
    match po_number with
    | .str s => if po.po_number = s then { po with status := status.errText } else po
    | _ => po

/-- The inbound WebSocket message union, restricted to the payload fields
the embedded handler reads.  `type` discriminates; optional payload fields
arrive as `Json` (absent fields are `null`). -/
structure WebSocketMessage where
  type : String
  message : Json
  error : Json
  po_number : Json
  status : Json
  project_id : Json
deriving Repr

/-- The POSidebar component state touched by `handleWebSocketMessage`. -/
structure POSidebarState where
  todayPOs : List PurchaseOrder
  selectedDatePOs : List PurchaseOrder
  workflowStatus : Option String
  lastWorkflowError : Option (String × String)
deriving Repr, DecidableEq

/-- `handleWebSocketMessage` (state effect only; toasts and the deferred
refetch of `workflow_complete` are I/O outside the state).  The
`po_status_update` case destructures `po_number` and `status`, guards on
their truthiness, and performs the keyed in-place update on both PO
lists; no case of this handler touches any chat `Message` list (the
component has none). -/
def handleWebSocketMessage (data : WebSocketMessage) (st : POSidebarState) :
    POSidebarState :=
  match data.type with
  | "workflow_progress" =>
      { st with
        workflowStatus :=
          some (if data.message.truthy then data.message.errText else "Processing...") }
  | "workflow_complete" =>
      { st with workflowStatus := none, lastWorkflowError := none }
  | "workflow_error" =>
      { st with
        workflowStatus := none
        lastWorkflowError :=
          some ("errorDate",
            ((data.error.orElse data.message).orElse (.str "Unknown error")).errText) }
  | "po_status_update" =>
      if data.po_number.truthy && data.status.truthy then
        { st with
          todayPOs := updatePOList data.po_number data.status st.todayPOs,
          selectedDatePOs :=
            updatePOList data.po_number data.status st.selectedDatePOs }
      else st
  | _ => st

/-! ## Chat message reducer
(src/frontend/components/chat-interface.tsx, `ChatInterface`:
`handleSendMessage` and the conversation-switch effect). -/

/-- `Message.sender`, the `"user" | "ai"` union. -/
inductive Sender where
  | user
  | ai
deriving Repr, DecidableEq

/-- A chat `Message` as produced by `handleSendMessage`, restricted to the
fields the verified properties observe (`id`, `content`, `sender`,
`intent`); the remaining response fields are presentation payload carried
through unchanged from the server response. -/
structure Message where
  id : String
  content : String
  sender : Sender
  intent : Option String
deriving Repr, DecidableEq

/-- The ChatInterface state hooks touched by `handleSendMessage`:
`messages`, `message` (the input field), `isTyping`, `error`. -/
structure ChatState where
  messages : List Message
  message : String
  isTyping : Bool
  error : Option String
deriving Repr, DecidableEq

/-- The request body captured at `fetch` time
(`{message, project_id, conversation_id}`): the conversation id sent is
the `currentConversationId` in scope when the request was issued. -/
structure PendingChatRequest where
  content : String
  projectId : String
  conversationId : Option String
deriving Repr, DecidableEq

/-- The synchronous prefix of `handleSendMessage`, up to (and including)
issuing the `fetch`: guard
`if (!message.trim() || !selectedProject || isTyping) return`, then append
the optimistic user message, clear the input, set `isTyping`, clear
`error`, and issue the request.  Returns the updated state and the issued
request (`none` when the guard returned early and no request was made). -/
def handleSendMessageStart (selectedProject : Option String)
    (currentConversationId : Option String) (now : Nat) (s : ChatState) :
    ChatState × Option PendingChatRequest :=
  if jsTrim s.message = "" ∨ selectedProject = none ∨ s.isTyping = true then
    (s, none)
  else
    let userMessage : Message :=
      { id := toString now
        content := jsTrim s.message
        sender := .user
        intent := none }
    ({ s with
        messages := s.messages ++ [userMessage]
        message := ""
        isTyping := true
        error := none },
      some
        { content := userMessage.content
          projectId := selectedProject.getD ""
          conversationId := currentConversationId })

/-- The environment's answer to the `/chat/query` fetch: either the
transport throws, or a response arrives with a status, an `ok` flag, a
content type, and a body (`body` is the result of `JSON.parse` on the
response text, `none` when the text is not valid JSON). -/
inductive ChatFetchResult where
  | networkError (msg : String)
  | response (status : Nat) (ok : Bool) (contentType : String) (body : Option Json)
deriving Repr

/-- The `try` block of `handleSendMessage` after the optimistic append:
missing token throws; `!response.ok` throws 401-specific or
`errorData.detail || "Server error: <status>"`; an ok response has its
body parsed by `response.json()` — the content type is never inspected on
this path.  Yields the parsed response data or the caught error's
message. -/
def chatQueryOutcome (token : Option String) (fetch : ChatFetchResult) :
    Except String Json :=
  match token with
  | none => .error "No authentication token found. Please log in again."
  | some _ =>
    match fetch with
    | .networkError m => .error m
    | .response status ok _contentType body =>
      if ok = false then
        if status = 401 then
          .error "Authentication expired. Please log in again."
        else
          let errorData := (body.getD (.obj [])).getField "detail"
          .error (if errorData.truthy then errorData.errText
                  else "Server error: " ++ toString status)
      else
        match body with
        | none => .error "Unexpected end of JSON input"
        | some data => .ok data

/-- The continuation of `handleSendMessage` once the request settles: the
success branch appends one `sender=ai` message assembled from the
response; the `catch` branch records the error and appends one
`sender=ai` message with the synthesized explanation; the `finally`
branch clears `isTyping`.  The append uses the functional updater
`setMessages(prev => [...prev, msg])`, i.e. it extends whatever message
list the component holds at settlement time — no conversation-id check
occurs. -/
def handleSendMessageSettle (isEmbeddingProcessing : Bool) (now : Nat)
    (outcome : Except String Json) (s : ChatState) : ChatState :=
  match outcome with
  | .ok data =>
    let aiResponse : Message :=
      { id := toString (now + 1)
        content := data.strField "final_answer"
        sender := .ai
        intent :=
          match data.getField "intent" with
          | .str v => some v
          | _ => none }
    { s with messages := s.messages ++ [aiResponse], isTyping := false }
  | .error m =>
    let errorContent :=
      "I'm sorry, I encountered an error: " ++ m ++
        (if isEmbeddingProcessing then
          "\n\nThis might be related to ongoing document processing. Please try again in a moment."
        else "")
    let errorResponse : Message :=
      { id := toString (now + 1)
        content := errorContent
        sender := .ai
        intent := some "error" }
    { s with
        messages := s.messages ++ [errorResponse]
        error := some m
        isTyping := false }

/-- The chat session: component state plus the selected conversation and
the at-most-one in-flight request (`isTyping` serializes sends). -/
structure ChatSession where
  chat : ChatState
  currentConversationId : Option String
  pending : Option PendingChatRequest
deriving Repr, DecidableEq

/-- Event-loop events interleaving with the chat reducer: a form submit,
the settlement of the in-flight request, and a conversation switch (whose
`useEffect` reloads and replaces the message list with the fetched
history or welcome message). -/
inductive ChatEvent where
  | send (selectedProject : Option String) (now : Nat)
  | settle (isEmbeddingProcessing : Bool) (now : Nat) (outcome : Except String Json)
  | switchConversation (conversationId : Option String) (loaded : List Message)
deriving Repr

/-- One event-loop step of the chat session. -/
def ChatSession.step (s : ChatSession) : ChatEvent → ChatSession
  | .send selectedProject now =>
    let r := handleSendMessageStart selectedProject s.currentConversationId now s.chat
    { s with
        chat := r.1
        pending := match r.2 with | some req => some req | none => s.pending }
  | .settle isEmbeddingProcessing now outcome =>
    match s.pending with
    | none => s
    | some _ =>
      { s with
          chat := handleSendMessageSettle isEmbeddingProcessing now outcome s.chat
          pending := none }
  | .switchConversation conversationId loaded =>
    { s with
        currentConversationId := conversationId
        chat := { s.chat with messages := loaded } }

/-- Run a sequence of event-loop events. -/
def ChatSession.run (s : ChatSession) (evs : List ChatEvent) : ChatSession :=
  evs.foldl ChatSession.step s

/-! ## WebSocket channel with reconnect/backoff
(src/unnamed/part_001, `POSidebar`: the WebSocket lifecycle effect and
`connectWebSocket` with its `onopen`/`onclose` handlers).

`connectWebSocket` is a `useCallback` whose lexical environment freezes
the render's `selectedProject` and `connectionRetries`.  The lifecycle
effect (deps `[selectedProject?.id]`) calls the instance of the render
in which the project changed, and the reconnect `setTimeout` callback
calls the very instance that created the closing socket — so every
socket of one reconnect chain is created by a single closure, and its
`onclose` guard and backoff delay read the values frozen when the chain
began, not the live state.  The live `connectionRetries` is written via
functional updaters but read by no handler.  The effect cleanup closure
likewise captures the `wsConnection` of the render in which the effect
ran. -/

/-- The captures frozen inside one `connectWebSocket` render instance:
the `selectedProject` and `connectionRetries` in scope when the closure
was created. -/
structure WsClosure where
  selectedProject : Option String
  connectionRetries : Nat
deriving Repr, DecidableEq

/-- A live `WebSocket` object: its id and the frozen closure whose
`onopen`/`onclose` handlers it carries. -/
structure WsSocket where
  id : Nat
  handlers : WsClosure
deriving Repr, DecidableEq

/-- The POSidebar connection state: the live `selectedProject` prop, the
live `connectionRetries` / `isConnected` / `wsConnection` state, the
created-and-not-yet-closed sockets, the scheduled reconnect timeouts
(delay plus the frozen closure their callback will invoke — the source
stores no timer handle, so no timer is ever cancelled), and the
`wsConnection` value the active effect's cleanup closure captured (the
value of the render in which the effect ran, not the live one). -/
structure WsChannelState where
  project : Option String
  retries : Nat
  connected : Bool
  wsConnection : Option Nat
  sockets : List WsSocket
  pendingTimers : List (Nat × WsClosure)
  cleanupCapture : Option Nat
  nextId : Nat
deriving Repr, DecidableEq

/-- `connectWebSocket` invoked through the render instance `cb`: the
early return tests the FROZEN `selectedProject`; otherwise a new
`WebSocket` is created whose handlers capture the same frozen values
(the access token is assumed present; its absence only adds an earlier
early return). -/
def connectWebSocket (cb : WsClosure) (st : WsChannelState) : WsChannelState :=
  match cb.selectedProject with
  | none => st
  | some _ =>
    { st with
        sockets := st.sockets ++ [⟨st.nextId, cb⟩]
        nextId := st.nextId + 1 }

/-- The `ws.onclose` handler: mark disconnected and null the connection,
then — reading the FROZEN captures — schedule a reconnect after
`Math.min(1000 * Math.pow(2, connectionRetries), 30000)` ms when the
frozen project is non-null and the frozen retry count is below 5. -/
def runOnClose (s : WsSocket) (st : WsChannelState) : WsChannelState :=
  let st1 := { st with connected := false, wsConnection := none }
  if s.handlers.selectedProject ≠ none ∧ s.handlers.connectionRetries < 5 then
    { st1 with
        pendingTimers := st1.pendingTimers ++
          [(min (1000 * 2 ^ s.handlers.connectionRetries) 30000, s.handlers)] }
  else st1

/-- Close the socket `sid` (deliberately via `.close()` or from the
network side): the socket goes away and its `onclose` handler runs —
a deliberate close also fires `onclose` and hence its reconnect
scheduling. -/
def closeSocket (sid : Nat) (st : WsChannelState) : WsChannelState :=
  match st.sockets.find? (fun s => s.id == sid) with
  | none => st
  | some s =>
    runOnClose s { st with sockets := st.sockets.filter (fun x => x.id != sid) }

/-- Channel events: `onopen`/`onclose` of a socket, a scheduled
reconnect timeout firing, and the lifecycle effect re-running on a
project change or deselection. -/
inductive WsEvent where
  | opened (sid : Nat)
  | closed (sid : Nat)
  | timerFired
  | selectProject (p : String)
  | deselect
deriving Repr, DecidableEq

/-- One event-loop step of the channel.
* `opened sid` (`ws.onopen`): mark connected, store the socket in
  `wsConnection`, reset the LIVE retry counter to 0 (no handler ever
  reads it back).
* `closed sid`: the socket's `onclose` runs, with its frozen-capture
  guard and delay.
* `timerFired`: the callback runs
  `setConnectionRetries(prev => prev + 1)` on the live counter and calls
  the SAME frozen `connectWebSocket` instance that created the closed
  socket.
* `selectProject p`: the previous effect's cleanup closes the
  `wsConnection` its closure captured (null in a first epoch:
  `setWsConnection` happens only in `onopen`, after the effect ran); the
  re-render sets the live project; the body calls a fresh
  `connectWebSocket` freezing `(some p, live retries)`; the new cleanup
  captures this render's `wsConnection`.
* `deselect`: cleanup as above; the body's `!selectedProject` branch
  closes this render's `wsConnection` and nulls the live state.  No
  `clearTimeout` exists anywhere, so `pendingTimers` is never cleared. -/
def WsChannelState.step (st : WsChannelState) : WsEvent → WsChannelState
  | .opened sid =>
    if (st.sockets.find? (fun s => s.id == sid)).isSome then
      { st with connected := true, wsConnection := some sid, retries := 0 }
    else st
  | .closed sid => closeSocket sid st
  | .timerFired =>
    match st.pendingTimers with
    | [] => st
    | (_, cb) :: rest =>
      connectWebSocket cb { st with pendingTimers := rest, retries := st.retries + 1 }
  | .selectProject p =>
    let st1 :=
      match st.cleanupCapture with
      | none => st
      | some sid => closeSocket sid st
    let st2 := { st1 with project := some p }
    let st3 := connectWebSocket ⟨some p, st.retries⟩ st2
    { st3 with cleanupCapture := st.wsConnection }
  | .deselect =>
    let st1 :=
      match st.cleanupCapture with
      | none => st
      | some sid => closeSocket sid st
    let st2 := { st1 with project := none }
    let st3 :=
      match st.wsConnection with
      | none => st2
      | some sid =>
        { (closeSocket sid st2) with wsConnection := none, connected := false }
    { st3 with cleanupCapture := st.wsConnection }

/-- Run a sequence of channel events. -/
def WsChannelState.run (st : WsChannelState) (evs : List WsEvent) : WsChannelState :=
  evs.foldl WsChannelState.step st

/-- The blank state before any project has been selected. -/
def wsInitial : WsChannelState :=
  { project := none, retries := 0, connected := false, wsConnection := none,
    sockets := [], pendingTimers := [], cleanupCapture := none, nextId := 0 }


/-! ## Status pollers
(src/frontend/app/login/page.tsx, `DashboardPage` embedding-status
polling effect; src/unnamed/part_001, `POSidebar` polling fallback
effect). -/

/-- The intervals of one polling concern: the running `setInterval`s
(id, period), the id owned by the latest effect run (which its cleanup
will `clearInterval`), and a fresh-id counter. -/
structure PollerConcern where
  active : List (Nat × Nat)
  owned : Option Nat
  nextId : Nat
deriving Repr, DecidableEq

/-- The initial state: no interval running. -/
def pollerInit : PollerConcern :=
  { active := [], owned := none, nextId := 0 }

/-- One run of a polling `useEffect` when its dependencies change: React
first invokes the previous run's cleanup (`clearInterval`), then the
body, which returns early when no project is selected and otherwise
starts one `setInterval` with the concern's fixed period. -/
def runPollingEffect (period : Nat) (project : Option String)
    (c : PollerConcern) : PollerConcern :=
  let cleaned : PollerConcern :=
    { active := c.active.filter (fun x => c.owned ≠ some x.1)
      owned := none
      nextId := c.nextId }
  match project with
  | none => cleaned
  | some _ =>
    { active := cleaned.active ++ [(cleaned.nextId, period)]
      owned := some cleaned.nextId
      nextId := cleaned.nextId + 1 }

/-- The lifecycle of one polling concern over a sequence of dependency
changes (each entry is the project selection the effect observes). -/
def runPollingLifecycle (period : Nat) (selections : List (Option String)) :
    PollerConcern :=
  selections.foldl (fun c p => runPollingEffect period p c) pollerInit

/-- The `DashboardPage` embedding-status poller: fixed 3000 ms period. -/
def embeddingPollingLifecycle (selections : List (Option String)) : PollerConcern :=
  runPollingLifecycle 3000 selections

/-- The `POSidebar` PO fallback poller: fixed 15000 ms period. -/
def poFallbackPollingLifecycle (selections : List (Option String)) : PollerConcern :=
  runPollingLifecycle 15000 selections

/-- One tick of the PO fallback interval: `if (!isConnected)` fetch
today's POs, and also the selected date's POs when that date is not
today; a connected channel suppresses the fetches.  Returns the names of
the fetches performed. -/
def poFallbackTick (isConnected : Bool) (selectedDateIsToday : Bool) :
    List String :=
  if isConnected = false then
    ["fetchTodayPOs"] ++ (if selectedDateIsToday then [] else ["fetchPOsForDate"])
  else []

/-! ## Conversation loader
(src/frontend/components/chat-interface.tsx,
`loadConversationMessages`: the `formattedMessages` mapping). -/

/-- A stored server message record, fields as delivered by
`/chat/conversation/{id}/messages` (each may be any JSON value; in
particular `query_result` and `metadata` may be JSON-encoded strings). -/
structure ServerMessageRecord where
  id : Json
  content : Json
  role : Json
  created_at : Json
  sql_query : Json
  intent : Json
  tables_used : Json
  business_rules_applied : Json
  reference_context : Json
  sample_data : Json
  rows_count : Json
  retrieval_stats : Json
  context_sources : Json
  query_result : Json
  metadata : Json
deriving Repr

/-- The in-memory structure built for one record by the
`formattedMessages` mapping. -/
structure FormattedMessage where
  id : Json
  content : Json
  sender : Sender
  timestamp : Json
  sqlQuery : Json
  queryResult : Json
  intent : Json
  tables_used : Json
  suggestion : Json
  business_rules_applied : Json
  reference_context : Json
  sample_data : Json
  total_rows : Json
  retrieval_stats : Json
  context_sources : Json
  chart : Json
  chart_suggestions : Json
  data_insights : Json
  requires_chart_selection : Bool
  direct_chart_generation : Json
  followup_suggestions : Json
deriving Repr

/-- Normalization of `msg.query_result`: a string-typed value is
`JSON.parse`d, substituting `null` when the parse throws; any other
value is kept as-is. -/
def normalizeQueryResult (parse : String → Option Json) (qr : Json) : Json :=
  match qr with
  | .str s => (parse s).getD .null
  | v => v

/-- Normalization of `msg.metadata`: `msg.metadata || {}`, then a
string-typed value is `JSON.parse`d (substituting `null` on a parse
failure), and finally
`if (!metadata || typeof metadata !== "object") metadata = {}`. -/
def normalizeMetadata (parse : String → Option Json) (m : Json) : Json :=
  let m1 := m.orElse (.obj [])
  let m2 :=
    match m1 with
    | .str s => (parse s).getD .null
    | v => v
  if m2.isObjectLike then m2 else .obj []

/-- The assembly half of the `formattedMessages` map body: given the
already-normalized `queryResult` and `metadata`, build the in-memory
message (every remaining field reads the raw record or the two
normalized values, exactly as the source's returned object literal). -/
def assembleFormattedMessage (msg : ServerMessageRecord)
    (queryResult metadata : Json) : FormattedMessage :=
  let visualizationData := (metadata.getField "_pending_viz_data").orElse (.obj [])
  let followupSuggestions := (metadata.getField "followup_suggestions").orElse (.arr [])
  let pendingVizData := (metadata.getField "_pending_viz_data").orElse (.obj [])
  let chartData := metadata.getField "chart"
  let suggestionsContainer := (pendingVizData.getField "suggestions").orElse (.obj [])
  let chartSuggestions := (suggestionsContainer.getField "suggestions").orElse (.arr [])
  let dataInsights :=
    ((((pendingVizData.getField "suggestions").getField "metadata").getField
        "data_insights").orElse (metadata.getField "data_insights")).orElse (.str "")
  let isDirectChartGeneration := (metadata.getField "is_direct_generation").orElse (.bool false)
  let suggestedQuestions :=
    (((metadata.getField "suggested_next_questions").orElse
        (metadata.getField "suggested_questions")).orElse
      (pendingVizData.getField "suggested_questions")).orElse (.arr [])
  { id := msg.id
    content := msg.content
    sender :=
      match msg.role with
      | .str s => if s = "user" then .user else .ai
      | _ => .ai
    timestamp := msg.created_at
    sqlQuery := msg.sql_query
    queryResult := queryResult
    intent := msg.intent
    tables_used := msg.tables_used
    suggestion := suggestedQuestions
    business_rules_applied := msg.business_rules_applied
    reference_context := msg.reference_context
    sample_data :=
      ((queryResult.getField "sample_data").orElse
        (queryResult.getField "data")).orElse msg.sample_data
    total_rows :=
      ((queryResult.getField "rows_count").orElse
        (queryResult.getField "row_count")).orElse msg.rows_count
    retrieval_stats := msg.retrieval_stats
    context_sources := msg.context_sources
    chart := if chartData.truthy then chartData else .null
    chart_suggestions := chartSuggestions.orElse (.arr [])
    data_insights :=
      ((dataInsights.orElse
          ((visualizationData.getField "metadata").getField "data_insights")).orElse
        (metadata.getField "data_insights")).orElse (.str "")
    requires_chart_selection :=
      (chartSuggestions.lengthProp).truthy
        || (((pendingVizData.getField "suggestions").lengthProp)).truthy
    direct_chart_generation := isDirectChartGeneration
    followup_suggestions := followupSuggestions }

/-- The body of the `formattedMessages` map: defensive normalization of
`query_result` and `metadata` (each may arrive as a JSON-encoded string
or as an already-parsed value), then assembly of the in-memory message.
`parse` is the platform's `JSON.parse`, abstract here. -/
def formatServerMessage (parse : String → Option Json)
    (msg : ServerMessageRecord) : FormattedMessage :=
  assembleFormattedMessage msg
    (normalizeQueryResult parse msg.query_result)
    (normalizeMetadata parse msg.metadata)

/-! ## Document upload response handling
(src/unnamed/part_000, `DocumentUploadDialog.handleUpload`). -/

/-- `contentType.includes('application/json')`. -/
def uploadContentTypeIsJson (contentType : String) : Bool :=
  jsIncludes contentType "application/json"

/-- The response handling of `handleUpload`: the content type is read
first; a JSON content type has its body parsed (`data.detail || "Upload
failed: <status>"` thrown on a non-ok status), while any other content
type is treated as the distinct failure `"Server error: Expected JSON
but received HTML (Status: <status>)"` without parsing the body as
data. -/
def handleUploadOutcome (fetch : ChatFetchResult) : Except String Json :=
  match fetch with
  | .networkError m => .error m
  | .response status ok contentType body =>
    if uploadContentTypeIsJson contentType then
      match body with
      | none => .error "Unexpected end of JSON input"
      | some data =>
        if ok = false then
          .error (if (data.getField "detail").truthy then (data.getField "detail").errText
                  else "Upload failed: " ++ toString status)
        else .ok data
    else
      .error ("Server error: Expected JSON but received HTML (Status: " ++
        toString status ++ ")")

/-! ## Helper lemmas -/

theorem updatePOList_length (po_number status : Json) (l : List PurchaseOrder) :
    (updatePOList po_number status l).length = l.length := by
  simp [updatePOList]

theorem updatePOList_get (pn : String) (status : Json) (l : List PurchaseOrder)
    (i : Nat) (h : i < l.length) (h2 : i < (updatePOList (.str pn) status l).length) :
    (updatePOList (.str pn) status l).get ⟨i, h2⟩ =
      (if (l.get ⟨i, h⟩).po_number = pn
        then { l.get ⟨i, h⟩ with status := status.errText }
        else l.get ⟨i, h⟩) := by
  simp [updatePOList, List.getElem_map]

theorem updatePOList_noMatch (pn : String) (status : Json) (l : List PurchaseOrder)
    (h : ∀ po ∈ l, po.po_number ≠ pn) :
    updatePOList (.str pn) status l = l := by
  induction l with
  | nil => rfl
  | cons a as ih =>
    have ha : a.po_number ≠ pn := h a (List.mem_cons_self a as)
    have has : ∀ po ∈ as, po.po_number ≠ pn :=
      fun po hpo => h po (List.mem_cons_of_mem a hpo)
    simp only [updatePOList, List.map_cons, if_neg ha]
    have := ih has
    simp only [updatePOList] at this
    rw [this]

/-! ## Claim theorems -/


/-- C3: `po_status_update` is a keyed, in-place, frame-preserving update:
for an event carrying a (non-empty) `po_number` and `status`, every
record of both PO lists keeps all fields unchanged except that a record
whose `po_number` matches has its `status` replaced; when no record of
either list matches, the whole state is left exactly as it was (no
phantom entry, no crash); the lengths of both lists are preserved and
the other component fields are untouched.  The handler runs in the PO
sidebar, which holds no chat message list, so no chat `Message` is
appended. -/
theorem po_status_update_keyed_inplace_frame
    (m e pid : Json) (pn stat : String) (s : POSidebarState)
    (hpn : pn ≠ "") (hst : stat ≠ "") :
    ((handleWebSocketMessage ⟨"po_status_update", m, e, .str pn, .str stat, pid⟩ s).todayPOs.length
        = s.todayPOs.length)
    ∧ ((handleWebSocketMessage ⟨"po_status_update", m, e, .str pn, .str stat, pid⟩ s).selectedDatePOs.length
        = s.selectedDatePOs.length)
    ∧ (∀ i (h : i < s.todayPOs.length),
        (handleWebSocketMessage ⟨"po_status_update", m, e, .str pn, .str stat, pid⟩ s).todayPOs[i]?
          = some (if (s.todayPOs.get ⟨i, h⟩).po_number = pn
              then { s.todayPOs.get ⟨i, h⟩ with status := stat }
              else s.todayPOs.get ⟨i, h⟩))
    ∧ (∀ i (h : i < s.selectedDatePOs.length),
        (handleWebSocketMessage ⟨"po_status_update", m, e, .str pn, .str stat, pid⟩ s).selectedDatePOs[i]?
          = some (if (s.selectedDatePOs.get ⟨i, h⟩).po_number = pn
              then { s.selectedDatePOs.get ⟨i, h⟩ with status := stat }
              else s.selectedDatePOs.get ⟨i, h⟩))
    ∧ ((∀ po ∈ s.todayPOs, po.po_number ≠ pn) →
        (∀ po ∈ s.selectedDatePOs, po.po_number ≠ pn) →
        handleWebSocketMessage ⟨"po_status_update", m, e, .str pn, .str stat, pid⟩ s = s)
    ∧ ((handleWebSocketMessage ⟨"po_status_update", m, e, .str pn, .str stat, pid⟩ s).workflowStatus
        = s.workflowStatus)
    ∧ ((handleWebSocketMessage ⟨"po_status_update", m, e, .str pn, .str stat, pid⟩ s).lastWorkflowError
        = s.lastWorkflowError) := by
  have hred :
      handleWebSocketMessage ⟨"po_status_update", m, e, .str pn, .str stat, pid⟩ s =
        { s with
          todayPOs := updatePOList (.str pn) (.str stat) s.todayPOs
          selectedDatePOs := updatePOList (.str pn) (.str stat) s.selectedDatePOs } := by
    simp [handleWebSocketMessage, Json.truthy, bne_iff_ne, hpn, hst]
  refine ⟨?_, ?_, ?_, ?_, ?_, ?_, ?_⟩
  · rw [hred]
    show (updatePOList (.str pn) (.str stat) s.todayPOs).length = s.todayPOs.length
    exact updatePOList_length _ _ _
  · rw [hred]
    show (updatePOList (.str pn) (.str stat) s.selectedDatePOs).length = s.selectedDatePOs.length
    exact updatePOList_length _ _ _
  · intro i h
    rw [hred]
    show (updatePOList (.str pn) (.str stat) s.todayPOs)[i]? = _
    have h2 : i < (updatePOList (.str pn) (.str stat) s.todayPOs).length := by
      rw [updatePOList_length]; exact h
    rw [List.getElem?_eq_getElem h2]
    exact congrArg some (updatePOList_get pn (.str stat) s.todayPOs i h h2)
  · intro i h
    rw [hred]
    show (updatePOList (.str pn) (.str stat) s.selectedDatePOs)[i]? = _
    have h2 : i < (updatePOList (.str pn) (.str stat) s.selectedDatePOs).length := by
      rw [updatePOList_length]; exact h
    rw [List.getElem?_eq_getElem h2]
    exact congrArg some (updatePOList_get pn (.str stat) s.selectedDatePOs i h h2)
  · intro h1 h2
    rw [hred, updatePOList_noMatch pn (.str stat) s.todayPOs h1,
      updatePOList_noMatch pn (.str stat) s.selectedDatePOs h2]
  · rw [hred]
  · rw [hred]

/-- Witness for C3 at a concrete event and state: a matching update and
its length preservation. -/
theorem po_status_update_keyed_inplace_frame_witness :
    (handleWebSocketMessage
        ⟨"po_status_update", .null, .null, .str "PO-1", .str "approved", .null⟩
        { todayPOs :=
            [{ po_number := "PO-1", vendor_name := "v", total_amount := 10,
               status := "generated", needs_approval := true, pdf_path := "p",
               order_date := "d", created_at := "c", materials_count := none }]
          selectedDatePOs := []
          workflowStatus := none
          lastWorkflowError := none }).todayPOs.length = 1 :=
  (po_status_update_keyed_inplace_frame (.null) (.null) (.null) "PO-1" "approved"
    { todayPOs :=
        [{ po_number := "PO-1", vendor_name := "v", total_amount := 10,
           status := "generated", needs_approval := true, pdf_path := "p",
           order_date := "d", created_at := "c", materials_count := none }]
      selectedDatePOs := []
      workflowStatus := none
      lastWorkflowError := none } (by decide) (by decide)).1

/-- C2 (code bug): the reconnect guard and backoff read frozen captures.
Every socket of the chain started at selection time carries the closure
frozen with `connectionRetries = 0`, so after five completed reconnect
attempts the next `onclose` still schedules a sixth — at the constant
1000 ms delay, not the exponential backoff — and the live attempt
counter passes 5 and keeps growing.  The claim's cap and backoff formula
are the code's evident intent (the source computes
`min(1000 * 2^retries, 30000)` and tests `retries < 5`), but the stale
closure defeats both. -/
theorem ws_reconnect_frozen_retries_unbounded :
    (((wsInitial.step (.selectProject "alpha")).run
        [.closed 0, .timerFired, .closed 1, .timerFired, .closed 2, .timerFired,
         .closed 3, .timerFired, .closed 4, .timerFired, .closed 5]).retries = 5
      ∧ ((wsInitial.step (.selectProject "alpha")).run
          [.closed 0, .timerFired, .closed 1, .timerFired, .closed 2, .timerFired,
           .closed 3, .timerFired, .closed 4, .timerFired, .closed 5]).pendingTimers
        = [(1000, ⟨some "alpha", 0⟩)])
    ∧ ((wsInitial.step (.selectProject "alpha")).run
        [.closed 0, .timerFired, .closed 1, .timerFired, .closed 2, .timerFired,
         .closed 3, .timerFired, .closed 4, .timerFired, .closed 5,
         .timerFired]).retries = 6
    ∧ ((wsInitial.step (.selectProject "alpha")).run
        [.closed 0, .timerFired, .closed 1, .timerFired, .closed 2, .timerFired,
         .closed 3, .timerFired, .closed 4, .timerFired, .closed 5,
         .timerFired]).sockets
      = [⟨6, ⟨some "alpha", 0⟩⟩] := by
  refine ⟨⟨?_, ?_⟩, ?_, ?_⟩ <;> decide

/-- C5 (code bug): cancellation and exclusivity fail through the same
frozen captures.  (1) With a reconnect timeout pending, deselecting the
project cancels nothing (no `clearTimeout` exists); the timer then fires
the frozen `connectWebSocket`, whose captured `selectedProject` is still
the old project, and opens a new socket for the deselected project.
(2) On a project change the effect cleanup closes the `wsConnection` its
closure captured when the effect ran — null, because the socket opened
only afterwards — so the existing connection stays open alongside the
new one: two concurrent channels. -/
theorem ws_deselect_and_switch_leak_connections :
    (((wsInitial.step (.selectProject "alpha")).run
        [.closed 0, .deselect]).pendingTimers = [(1000, ⟨some "alpha", 0⟩)]
      ∧ ((wsInitial.step (.selectProject "alpha")).run
          [.closed 0, .deselect]).project = none
      ∧ ((wsInitial.step (.selectProject "alpha")).run
          [.closed 0, .deselect, .timerFired]).sockets
        = [⟨1, ⟨some "alpha", 0⟩⟩])
    ∧ ((wsInitial.step (.selectProject "alpha")).run
        [.opened 0, .selectProject "beta"]).sockets
      = [⟨0, ⟨some "alpha", 0⟩⟩, ⟨1, ⟨some "beta", 0⟩⟩] := by
  refine ⟨⟨?_, ?_, ?_⟩, ?_⟩ <;> decide


/-- Reduction of a successful submit: the guard passes, the optimistic
user message is appended, the input clears, `isTyping` is set, and the
request is issued capturing the current conversation id. -/
theorem sendStep_reduce (s : ChatSession) (p : String) (now : Nat)
    (htyping : s.chat.isTyping = false) (hmsg : jsTrim s.chat.message ≠ "") :
    s.step (.send (some p) now) =
      { chat :=
          { messages := s.chat.messages ++
              [{ id := toString now, content := jsTrim s.chat.message,
                 sender := .user, intent := none }]
            message := ""
            isTyping := true
            error := none }
        currentConversationId := s.currentConversationId
        pending := some
          { content := jsTrim s.chat.message, projectId := p,
            conversationId := s.currentConversationId } } := by
  simp [ChatSession.step, handleSendMessageStart, hmsg, htyping]

/-- Settling the in-flight request appends exactly one `sender=ai`
message (success or error), clears `isTyping`, and clears the pending
request. -/
theorem settle_appends_one (s : ChatSession) (req : PendingChatRequest)
    (hp : s.pending = some req) (emb : Bool) (now2 : Nat)
    (outcome : Except String Json) :
    ∃ m : Message, m.sender = .ai
      ∧ (s.step (.settle emb now2 outcome)).chat.messages = s.chat.messages ++ [m]
      ∧ (s.step (.settle emb now2 outcome)).chat.isTyping = false
      ∧ (s.step (.settle emb now2 outcome)).pending = none := by
  cases outcome with
  | ok data =>
    refine ⟨{ id := toString (now2 + 1), content := data.strField "final_answer",
              sender := .ai,
              intent := match data.getField "intent" with
                        | .str v => some v
                        | _ => none }, rfl, ?_, ?_, ?_⟩ <;>
      simp [ChatSession.step, hp, handleSendMessageSettle]
  | error m =>
    refine ⟨{ id := toString (now2 + 1),
              content := "I'm sorry, I encountered an error: " ++ m ++
                (if emb then "\n\nThis might be related to ongoing document processing. Please try again in a moment." else ""),
              sender := .ai, intent := some "error" }, rfl, ?_, ?_, ?_⟩ <;>
      simp [ChatSession.step, hp, handleSendMessageSettle]

/-- C1 (code bug): with conversation A current, a submit captures
`conversation_id = A`; the user then switches to conversation B (whose
history replaces the list); when A's request settles, the AI response is
appended to the displayed list anyway — the code performs no comparison
of the captured conversation id (`some "A"`) with the current one
(`some "B"`) before applying the result, so B's visible thread ends with
A's stale answer. -/
theorem stale_chat_response_appended_to_switched_conversation :
    ((ChatSession.mk
        (ChatState.mk [] "hello" false none) (some "A") none).step
          (.send (some "proj") 100)).pending
        = some { content := "hello", projectId := "proj", conversationId := some "A" }
    ∧ (some "A" : Option String) ≠ some "B"
    ∧ ((ChatSession.mk
          (ChatState.mk [] "hello" false none) (some "A") none).run
          [.send (some "proj") 100,
           .switchConversation (some "B")
             [{ id := "welcome", content := "Hello! B", sender := .ai,
                intent := some "welcome" }],
           .settle false 200 (.ok (.obj [("final_answer", .str "stale answer for A")]))]).currentConversationId
        = some "B"
    ∧ ((ChatSession.mk
          (ChatState.mk [] "hello" false none) (some "A") none).run
          [.send (some "proj") 100,
           .switchConversation (some "B")
             [{ id := "welcome", content := "Hello! B", sender := .ai,
                intent := some "welcome" }],
           .settle false 200 (.ok (.obj [("final_answer", .str "stale answer for A")]))]).chat.messages
        = [{ id := "welcome", content := "Hello! B", sender := .ai,
             intent := some "welcome" },
           { id := "201", content := "stale answer for A", sender := .ai,
             intent := none }] := by
  refine ⟨?_, ?_, ?_, ?_⟩ <;> decide

/-- C6: user-submit path.  For every submission of a message that is
non-blank after trimming while a project is selected (any
`currentConversationId`, including none), the optimistic `sender=user`
message carrying the trimmed input is appended immediately — before the
network call resolves — the input field is cleared synchronously, a
single request is issued, and once that request settles (success or
failure) exactly one `sender=ai` message is appended. -/
theorem handleSendMessage_optimistic_append_and_single_response
    (s : ChatSession) (p : String) (now now2 : Nat) (emb : Bool)
    (outcome : Except String Json)
    (htyping : s.chat.isTyping = false)
    (hmsg : jsTrim s.chat.message ≠ "") :
    ((s.step (.send (some p) now)).chat.messages
        = s.chat.messages ++
          [{ id := toString now, content := jsTrim s.chat.message,
             sender := .user, intent := none }])
    ∧ ((s.step (.send (some p) now)).chat.message = "")
    ∧ ((s.step (.send (some p) now)).pending
        = some { content := jsTrim s.chat.message, projectId := p,
                 conversationId := s.currentConversationId })
    ∧ (∃ m : Message, m.sender = .ai
        ∧ ((s.step (.send (some p) now)).step (.settle emb now2 outcome)).chat.messages
            = (s.step (.send (some p) now)).chat.messages ++ [m]) := by
  have hred := sendStep_reduce s p now htyping hmsg
  refine ⟨by rw [hred], by rw [hred], by rw [hred], ?_⟩
  obtain ⟨m, hm, hmm, -, -⟩ := settle_appends_one (s.step (.send (some p) now))
    { content := jsTrim s.chat.message, projectId := p,
      conversationId := s.currentConversationId }
    (by rw [hred]) emb now2 outcome
  exact ⟨m, hm, hmm⟩

/-- Witness for C6: the spec's scenario — submitting
"generate PO for today" with `currentConversationId = null`. -/
theorem handleSendMessage_optimistic_append_and_single_response_witness :
    (((ChatSession.mk (ChatState.mk [] "generate PO for today" false none)
        none none).step (.send (some "proj") 1)).chat.message = "")
    ∧ (∃ m : Message, m.sender = .ai
        ∧ ((((ChatSession.mk (ChatState.mk [] "generate PO for today" false none)
              none none).step (.send (some "proj") 1)).step
                (.settle false 2 (.ok (.obj [("final_answer", .str "done")])))).chat.messages
            = (((ChatSession.mk (ChatState.mk [] "generate PO for today" false none)
                  none none).step (.send (some "proj") 1)).chat.messages ++ [m]))) := by
  have h := handleSendMessage_optimistic_append_and_single_response
    (ChatSession.mk (ChatState.mk [] "generate PO for today" false none) none none)
    "proj" 1 2 false (.ok (.obj [("final_answer", .str "done")])) rfl (by decide)
  exact ⟨h.2.1, h.2.2.2⟩

/-- C7: failed chat requests are never silently dropped.  A missing
token, a transport failure, a 401, and any other non-OK status each
yield an error outcome; every error outcome makes the settle path append
exactly one `sender=ai` message carrying the synthesized explanation
("I'm sorry, I encountered an error: …"), and every success outcome
appends exactly one `sender=ai` message assembled from the response's
`final_answer`. -/
theorem chat_failure_always_surfaced_as_ai_message :
    (∀ fetch : ChatFetchResult,
      chatQueryOutcome none fetch
        = .error "No authentication token found. Please log in again.")
    ∧ (∀ (tok m : String), chatQueryOutcome (some tok) (.networkError m) = .error m)
    ∧ (∀ (tok ct : String) (body : Option Json),
        chatQueryOutcome (some tok) (.response 401 false ct body)
          = .error "Authentication expired. Please log in again.")
    ∧ (∀ (tok ct : String) (status : Nat) (body : Option Json),
        ∃ e, chatQueryOutcome (some tok) (.response status false ct body) = .error e)
    ∧ (∀ (emb : Bool) (now : Nat) (e : String) (c : ChatState),
        (handleSendMessageSettle emb now (.error e) c).messages
          = c.messages ++
            [{ id := toString (now + 1)
               content := "I'm sorry, I encountered an error: " ++ e ++
                 (if emb then "\n\nThis might be related to ongoing document processing. Please try again in a moment." else "")
               sender := .ai
               intent := some "error" }])
    ∧ (∀ (emb : Bool) (now : Nat) (data : Json) (c : ChatState),
        ∃ m : Message, m.sender = .ai ∧ m.content = data.strField "final_answer"
          ∧ (handleSendMessageSettle emb now (.ok data) c).messages
              = c.messages ++ [m]) := by
  refine ⟨fun fetch => rfl, fun tok m => rfl, fun tok ct body => rfl, ?_, ?_, ?_⟩
  · intro tok ct status body
    by_cases h401 : status = 401
    · subst h401
      exact ⟨"Authentication expired. Please log in again.", rfl⟩
    · exact ⟨(if ((body.getD (.obj [])).getField "detail").truthy
          then ((body.getD (.obj [])).getField "detail").errText
          else "Server error: " ++ toString status),
        by simp [chatQueryOutcome, h401]⟩
  · intro emb now e c
    rfl
  · intro emb now data c
    exact ⟨{ id := toString (now + 1), content := data.strField "final_answer",
             sender := .ai,
             intent := match data.getField "intent" with
                       | .str v => some v
                       | _ => none }, rfl, rfl, rfl⟩

/-- C10: the guard of `handleSendMessage` serializes requests.  A submit
with a blank (after trimming) input, no selected project, or `isTyping`
set returns with the state unchanged and no request issued; the
invariant "a pending request implies `isTyping`" is preserved by every
event; hence a submit that arrives while a request is in flight changes
nothing — at most one chat request is in flight at any time and
submit/response pairs never interleave. -/
theorem handleSendMessage_guard_serializes_requests :
    (∀ (proj cid : Option String) (now : Nat) (c : ChatState),
      (jsTrim c.message = "" ∨ proj = none ∨ c.isTyping = true) →
      handleSendMessageStart proj cid now c = (c, none))
    ∧ (∀ (s : ChatSession) (evs : List ChatEvent),
        (s.pending.isSome → s.chat.isTyping = true) →
        ((s.run evs).pending.isSome → (s.run evs).chat.isTyping = true))
    ∧ (∀ (s : ChatSession) (proj : Option String) (now : Nat),
        s.chat.isTyping = true → s.step (.send proj now) = s) := by
  refine ⟨?_, ?_, ?_⟩
  · intro proj cid now c h
    unfold handleSendMessageStart
    rw [if_pos h]
  · intro s evs hinv
    induction evs generalizing s with
    | nil => exact hinv
    | cons e es ih =>
      apply ih
      cases e with
      | send proj now =>
        by_cases hg : (jsTrim s.chat.message = "" ∨ proj = none
            ∨ s.chat.isTyping = true)
        · have hstart : handleSendMessageStart proj s.currentConversationId now s.chat
              = (s.chat, none) := by
            unfold handleSendMessageStart
            rw [if_pos hg]
          simpa [ChatSession.step, hstart] using hinv
        · have htrue : (s.step (.send proj now)).chat.isTyping = true := by
            simp [ChatSession.step, handleSendMessageStart, hg]
          exact fun _ => htrue
      | settle emb now2 outcome =>
        cases hp : s.pending with
        | none => simp [ChatSession.step, hp]
        | some req => simp [ChatSession.step, hp]
      | switchConversation cid loaded =>
        simpa [ChatSession.step] using hinv
  · intro s proj now h
    have hg : (jsTrim s.chat.message = "" ∨ proj = none ∨ s.chat.isTyping = true) :=
      Or.inr (Or.inr h)
    have hstart : handleSendMessageStart proj s.currentConversationId now s.chat
        = (s.chat, none) := by
      unfold handleSendMessageStart
      rw [if_pos hg]
    simp [ChatSession.step, hstart]

/-- Witness for C10: a blank submit is a no-op, and a submit while a
request is in flight (`isTyping`) leaves the session unchanged. -/
theorem handleSendMessage_guard_serializes_requests_witness :
    (handleSendMessageStart (some "proj") none 5 (ChatState.mk [] "   " false none)
        = (ChatState.mk [] "   " false none, none))
    ∧ ((ChatSession.mk (ChatState.mk [] "hi" true none) none
          (some (PendingChatRequest.mk "hi" "proj" none))).step (.send (some "proj") 7)
        = ChatSession.mk (ChatState.mk [] "hi" true none) none
            (some (PendingChatRequest.mk "hi" "proj" none))) := by
  constructor
  · exact (handleSendMessage_guard_serializes_requests).1 (some "proj") none 5
      (ChatState.mk [] "   " false none) (Or.inl (by decide))
  · exact (handleSendMessage_guard_serializes_requests).2.2
      (ChatSession.mk (ChatState.mk [] "hi" true none) none
        (some (PendingChatRequest.mk "hi" "proj" none))) (some "proj") 7 rfl

/-- Invariant of one polling concern: either no interval is running (and
none is owned), or exactly one interval with the concern's fixed period
is running and it is the one the latest effect run owns. -/
def PollerInv (period : Nat) (c : PollerConcern) : Prop :=
  (c.active = [] ∧ c.owned = none)
    ∨ (∃ id, c.active = [(id, period)] ∧ c.owned = some id)

theorem pollerInv_effect (period : Nat) (p : Option String)
    (c : PollerConcern) (hinv : PollerInv period c) :
    PollerInv period (runPollingEffect period p c) := by
  have hclean :
      (c.active.filter (fun x => c.owned ≠ some x.1)) = [] := by
    rcases hinv with ⟨ha, ho⟩ | ⟨id, ha, ho⟩
    · simp [ha]
    · simp [ha, ho]
  cases p with
  | none =>
    refine Or.inl ⟨?_, rfl⟩
    show (c.active.filter (fun x => c.owned ≠ some x.1)) = []
    exact hclean
  | some q =>
    refine Or.inr ⟨c.nextId, ?_, rfl⟩
    show (c.active.filter (fun x => c.owned ≠ some x.1)) ++ [(c.nextId, period)]
        = [(c.nextId, period)]
    rw [hclean]
    rfl

theorem pollerInv_lifecycle (period : Nat) (selections : List (Option String)) :
    PollerInv period (runPollingLifecycle period selections) := by
  suffices h : ∀ (c : PollerConcern), PollerInv period c →
      PollerInv period (selections.foldl (fun c p => runPollingEffect period p c) c) by
    exact h pollerInit (Or.inl ⟨rfl, rfl⟩)
  induction selections with
  | nil => exact fun c hc => hc
  | cons p ps ih =>
    exact fun c hc => ih (runPollingEffect period p c) (pollerInv_effect period p c hc)

/-- C8: status-poller lifecycle.  Over every sequence of dependency
changes, the embedding-status concern runs at most one interval and any
running interval has the fixed 3000 ms period; likewise the PO fallback
concern with 15000 ms; a change that deselects the project leaves no
interval running (the prior one was cleared); an effect re-run clears
the previously owned interval before starting the new one; and a PO
fallback tick fetches only while the WebSocket is not connected. -/
theorem status_poller_lifecycle :
    (∀ selections : List (Option String),
      (embeddingPollingLifecycle selections).active.length ≤ 1
        ∧ ∀ x ∈ (embeddingPollingLifecycle selections).active, x.2 = 3000)
    ∧ (∀ selections : List (Option String),
        (embeddingPollingLifecycle (selections ++ [none])).active = [])
    ∧ (∀ selections : List (Option String),
      (poFallbackPollingLifecycle selections).active.length ≤ 1
        ∧ ∀ x ∈ (poFallbackPollingLifecycle selections).active, x.2 = 15000)
    ∧ (∀ selections : List (Option String),
        (poFallbackPollingLifecycle (selections ++ [none])).active = [])
    ∧ (∀ (period id n : Nat) (q : String),
        runPollingEffect period (some q) (PollerConcern.mk [(id, period)] (some id) n)
          = PollerConcern.mk [(n, period)] (some n) (n + 1))
    ∧ (∀ selectedDateIsToday : Bool, poFallbackTick true selectedDateIsToday = [])
    ∧ (∀ selectedDateIsToday : Bool,
        "fetchTodayPOs" ∈ poFallbackTick false selectedDateIsToday) := by
  have hlen : ∀ (period : Nat) (selections : List (Option String)),
      (runPollingLifecycle period selections).active.length ≤ 1
        ∧ ∀ x ∈ (runPollingLifecycle period selections).active, x.2 = period := by
    intro period selections
    rcases pollerInv_lifecycle period selections with ⟨ha, -⟩ | ⟨id, ha, -⟩
    · simp [ha]
    · simp [ha]
  have hnone : ∀ (period : Nat) (selections : List (Option String)),
      (runPollingLifecycle period (selections ++ [none])).active = [] := by
    intro period selections
    have hfold : runPollingLifecycle period (selections ++ [none])
        = runPollingEffect period none (runPollingLifecycle period selections) := by
      simp [runPollingLifecycle, List.foldl_append]
    rw [hfold]
    rcases pollerInv_lifecycle period selections with ⟨ha, ho⟩ | ⟨id, ha, ho⟩
    · simp [runPollingEffect, ha]
    · simp [runPollingEffect, ha, ho]
  refine ⟨fun sel => hlen 3000 sel, fun sel => hnone 3000 sel,
    fun sel => hlen 15000 sel, fun sel => hnone 15000 sel, ?_, ?_, ?_⟩
  · intro period id n q
    simp [runPollingEffect]
  · intro today
    rfl
  · intro today
    cases today <;> simp [poFallbackTick]

/-- Witness for C8 at concrete dependency-change sequences: after two
project changes exactly one 3000 ms interval runs, and deselection
clears it. -/
theorem status_poller_lifecycle_witness :
    (embeddingPollingLifecycle [some "p", some "q"]).active.length ≤ 1
    ∧ ((1, 3000) ∈ (embeddingPollingLifecycle [some "p", some "q"]).active)
    ∧ ((1, 3000) : Nat × Nat).2 = 3000
    ∧ (embeddingPollingLifecycle [some "p", none]).active = [] := by
  refine ⟨(status_poller_lifecycle.1 [some "p", some "q"]).1, by decide,
    (status_poller_lifecycle.1 [some "p", some "q"]).2 (1, 3000) (by decide),
    status_poller_lifecycle.2.1 [some "p"]⟩

/-- A string-typed `metadata` that parses to an object-like value
normalizes to that value. -/
theorem normalizeMetadata_parsed (parse : String → Option Json) (s : String)
    (v : Json) (hs : s ≠ "") (hp : parse s = some v)
    (hv : v.isObjectLike = true) :
    normalizeMetadata parse (.str s) = v := by
  simp [normalizeMetadata, Json.orElse, Json.truthy, bne_iff_ne, hs, hp, hv]

/-- An already-parsed object-like `metadata` normalizes to itself. -/
theorem normalizeMetadata_obj (parse : String → Option Json) (v : Json)
    (hv : v.isObjectLike = true) :
    normalizeMetadata parse v = v := by
  cases v <;>
    simp_all [normalizeMetadata, Json.orElse, Json.truthy, Json.isObjectLike]

/-- A string-typed `metadata` that fails to parse normalizes to the
substituted empty object. -/
theorem normalizeMetadata_badString (parse : String → Option Json)
    (s : String) (hp : parse s = none) :
    normalizeMetadata parse (.str s) = .obj [] := by
  by_cases hs : s = ""
  · subst hs
    simp [normalizeMetadata, Json.orElse, Json.truthy]
  · simp [normalizeMetadata, Json.orElse, Json.truthy, bne_iff_ne, hs, hp,
      Json.isObjectLike]

/-- A string-typed `query_result` that parses normalizes to the parsed
value. -/
theorem normalizeQueryResult_parsed (parse : String → Option Json)
    (t : String) (w : Json) (hp : parse t = some w) :
    normalizeQueryResult parse (.str t) = w := by
  simp [normalizeQueryResult, hp]

/-- A non-string `query_result` is kept as-is. -/
theorem normalizeQueryResult_nonString (parse : String → Option Json)
    (w : Json) (hw : w.isString = false) :
    normalizeQueryResult parse w = w := by
  cases w <;> simp_all [normalizeQueryResult, Json.isString]

/-- A string-typed `query_result` that fails to parse normalizes to the
substituted `null`. -/
theorem normalizeQueryResult_badString (parse : String → Option Json)
    (t : String) (hp : parse t = none) :
    normalizeQueryResult parse (.str t) = .null := by
  simp [normalizeQueryResult, hp]

/-- C4: round-trip decoding at the conversation-load boundary.  Loading
a stored record whose `metadata` is the JSON string encoding an
object-like value `v` and whose `query_result` is the JSON string
encoding `w` yields the very same in-memory `FormattedMessage` as
loading the record with those fields already parsed; and a string-typed
field that fails to parse is replaced by the empty object (`metadata`)
or `null` (`query_result`) instead of propagating the exception. -/
theorem loadConversation_metadata_roundtrip
    (parse : String → Option Json) (msg : ServerMessageRecord)
    (s t : String) (v w : Json)
    (hs : s ≠ "") (hpv : parse s = some v) (hv : v.isObjectLike = true)
    (hpw : parse t = some w) (hw : w.isString = false) :
    (formatServerMessage parse { msg with metadata := .str s, query_result := .str t }
        = formatServerMessage parse { msg with metadata := v, query_result := w })
    ∧ (∀ s2 : String, parse s2 = none →
        normalizeMetadata parse (.str s2) = .obj [])
    ∧ (∀ t2 : String, parse t2 = none →
        normalizeQueryResult parse (.str t2) = .null) := by
  refine ⟨?_, fun s2 h2 => normalizeMetadata_badString parse s2 h2,
    fun t2 h2 => normalizeQueryResult_badString parse t2 h2⟩
  show assembleFormattedMessage { msg with metadata := .str s, query_result := .str t }
        (normalizeQueryResult parse (.str t)) (normalizeMetadata parse (.str s))
      = assembleFormattedMessage { msg with metadata := v, query_result := w }
        (normalizeQueryResult parse w) (normalizeMetadata parse v)
  rw [normalizeQueryResult_parsed parse t w hpw,
    normalizeQueryResult_nonString parse w hw,
    normalizeMetadata_parsed parse s v hs hpv hv,
    normalizeMetadata_obj parse v hv]
  rfl

/-- Witness for C4 with a concrete `JSON.parse` fragment: the metadata
object `{"chart": 1}` was stored stringified on one record and parsed
on the other; both load to the same in-memory message. -/
theorem loadConversation_metadata_roundtrip_witness :
    formatServerMessage
        (fun s2 => if s2 = "OBJ" then some (.obj [("chart", .num 1)]) else none)
        { id := .str "1", content := .str "hi", role := .str "user",
          created_at := .null, sql_query := .null, intent := .null,
          tables_used := .null, business_rules_applied := .null,
          reference_context := .null, sample_data := .null, rows_count := .null,
          retrieval_stats := .null, context_sources := .null,
          query_result := .str "OBJ", metadata := .str "OBJ" }
      = formatServerMessage
          (fun s2 => if s2 = "OBJ" then some (.obj [("chart", .num 1)]) else none)
          { id := .str "1", content := .str "hi", role := .str "user",
            created_at := .null, sql_query := .null, intent := .null,
            tables_used := .null, business_rules_applied := .null,
            reference_context := .null, sample_data := .null, rows_count := .null,
            retrieval_stats := .null, context_sources := .null,
            query_result := .obj [("chart", .num 1)],
            metadata := .obj [("chart", .num 1)] } :=
  (loadConversation_metadata_roundtrip
    (fun s2 => if s2 = "OBJ" then some (.obj [("chart", .num 1)]) else none)
    { id := .str "1", content := .str "hi", role := .str "user",
      created_at := .null, sql_query := .null, intent := .null,
      tables_used := .null, business_rules_applied := .null,
      reference_context := .null, sample_data := .null, rows_count := .null,
      retrieval_stats := .null, context_sources := .null,
      query_result := .str "OBJ", metadata := .str "OBJ" }
    "OBJ" "OBJ" (.obj [("chart", .num 1)]) (.obj [("chart", .num 1)])
    (by decide) (by simp) rfl (by simp) rfl).1

/-- C9 counterexample: the `/chat/query` path never inspects the
response's content type — an OK response declared `text/html` whose body
happens to parse as JSON is accepted and its body used as data, so
"the body is never parsed as data [on a non-JSON content type] … for the
API-calling paths of the program" is false for `handleSendMessage`. -/
theorem chat_query_ignores_content_type_cex :
    chatQueryOutcome (some "tok")
        (.response 200 true "text/html"
          (some (.obj [("final_answer", .str "hi")])))
      = .ok (.obj [("final_answer", .str "hi")]) := rfl

/-- C9 (amended): the document-upload path validates the content type —
any response whose content type does not include `application/json` is
turned into the distinct "Server error: Expected JSON but received HTML
(Status: …)" failure without its body being used as data; the chat-query
path never inspects the content type: its body is always JSON-parsed,
an unparseable body surfaces as a caught error message (never an
uncaught exception or corrupt data), but a JSON-parseable body is
accepted as data regardless of the declared content type. -/
theorem content_type_validation_amended :
    (∀ (status : Nat) (ok : Bool) (ct : String) (body : Option Json),
      uploadContentTypeIsJson ct = false →
      handleUploadOutcome (.response status ok ct body)
        = .error ("Server error: Expected JSON but received HTML (Status: "
            ++ toString status ++ ")"))
    ∧ (∀ (tok ct : String) (status : Nat),
        chatQueryOutcome (some tok) (.response status true ct none)
          = .error "Unexpected end of JSON input")
    ∧ (∀ (tok ct : String) (status : Nat) (data : Json),
        chatQueryOutcome (some tok) (.response status true ct (some data))
          = .ok data) := by
  refine ⟨?_, fun tok ct status => rfl, fun tok ct status data => rfl⟩
  intro status ok ct body hct
  simp [handleUploadOutcome, hct]

/-- Witness for C9's amended theorem: an HTML error page on the upload
path is rejected as an unexpected content type. -/
theorem content_type_validation_amended_witness :
    handleUploadOutcome (.response 502 false "text/html" none)
      = .error "Server error: Expected JSON but received HTML (Status: 502)" := by
  have h := (content_type_validation_amended).1 502 false "text/html" none (by decide)
  simpa using h
